import Mathlib

/-!
Verification of the `to_method` crate (`src/lib.rs`).

The crate defines a single extension trait `To` with two provided methods,
blanket-implemented for every type:

  fn to<T>(self) -> T where Self: Into<T> { <Self as Into<T>>::into(self) }
  fn try_to<T>(self) -> Result<T, <Self as TryInto<T>>::Error>
      where Self: TryInto<T> { <Self as TryInto<T>>::try_into(self) }

We embed Rust's `Into` and `TryInto` traits as Lean type classes and the two
methods as polymorphic functions.  Rust's `Result<T, E>` is embedded as
`Except E T`.  Concrete integer conversions from Rust core (`u8 -> u16`
widening via `From`, `u16 -> u8` narrowing via `TryFrom` with error
`TryFromIntError`, and the widenings `u16 -> u32`, `u8 -> u32`) are embedded
on `Fin`-based machine-integer types so that the spec's concrete scenarios
can be evaluated.
-/

namespace ToMethod

/-- Rust's `Into<T>` trait: an infallible conversion from `S` to `T`. -/
class Into (S : Type) (T : Type) where
  into : S → T

/-- Rust's `TryInto<T>` trait: a fallible conversion from `S` to `T` whose
associated `Error` type is the (output) parameter `E`.  Rust's
`Result<T, E>` is embedded as `Except E T`. -/
class TryInto (S : Type) (T : Type) (E : outParam Type) where
  try_into : S → Except E T

/-- `To::to` from `src/lib.rs` lines 98-103: converts to `T` by calling
`Into::<T>::into`.  The blanket `impl<T: ?Sized> To for T` is reflected by
`to` being defined for every type `S` with an `Into S T` instance. -/
def «to» {S T : Type} [Into S T] (v : S) : T :=
  Into.into v

/-- `To::try_to` from `src/lib.rs` lines 106-111: tries to convert to `T` by
calling `TryInto::<T>::try_into`, returning the underlying result verbatim. -/
def try_to {S T E : Type} [TryInto S T E] (v : S) : Except E T :=
  TryInto.try_into v

/-- Modelled from the spec (section 8, first testable property): the result
the spec demands of the infallible path, namely the underlying infallible
conversion invoked directly on the value. -/
def toSpec {S T : Type} [Into S T] (v : S) : T :=
  Into.into v

/-- Modelled from the spec (section 8, second testable property): the result
the spec demands of the fallible path, namely the underlying fallible
conversion invoked directly on the value. -/
def tryToSpec {S T E : Type} [TryInto S T E] (v : S) : Except E T :=
  TryInto.try_into v

/-- Rust core's reflexive `impl<T> From<T> for T`, which yields the identity
`Into<T>` for every `T`. -/
instance instIntoRefl {S : Type} : Into S S where
  into := id

/-- Rust core's `core::num::TryFromIntError`, a unit-like opaque error struct
returned by the narrowing integer `TryFrom` impls. -/
structure TryFromIntError : Type where
deriving DecidableEq

/-- Rust's `core::convert::Infallible`, the uninhabited error type of the
blanket `impl<T, U: Into<T>> TryFrom<U> for T`. -/
def Infallible : Type := Empty

/-- Rust core's blanket `impl<T, U: Into<T>> TryFrom<U> for T`, whose
`try_from` is `Ok(value.into())` and whose `Error` is `Infallible`.  It is a
plain definition rather than a registered instance so that concrete
narrowing `TryInto` instances below stay unambiguous. -/
def tryIntoOfInto {S T : Type} [Into S T] : TryInto S T Infallible where
  try_into v := Except.ok (Into.into v)

/-- Rust's 8-bit unsigned machine integers. -/
abbrev U8 : Type := Fin 256

/-- Rust's 16-bit unsigned machine integers. -/
abbrev U16 : Type := Fin 65536

/-- Rust's 32-bit unsigned machine integers. -/
abbrev U32 : Type := Fin 4294967296

/-- Rust core's widening `impl From<u8> for u16` (value-preserving). -/
instance instIntoU8U16 : Into U8 U16 where
  into v := ⟨v.val, lt_trans v.isLt (by norm_num)⟩

/-- Rust core's widening `impl From<u16> for u32` (value-preserving). -/
instance instIntoU16U32 : Into U16 U32 where
  into v := ⟨v.val, lt_trans v.isLt (by norm_num)⟩

/-- Rust core's widening `impl From<u8> for u32` (value-preserving). -/
instance instIntoU8U32 : Into U8 U32 where
  into v := ⟨v.val, lt_trans v.isLt (by norm_num)⟩

/-- Rust core's narrowing `impl TryFrom<u16> for u8`: succeeds with the same
value when it fits in 8 bits, otherwise fails with `TryFromIntError`. -/
instance instTryIntoU16U8 : TryInto U16 U8 TryFromIntError where
  try_into v := if h : v.val < 256 then Except.ok ⟨v.val, h⟩ else Except.error ⟨⟩

end ToMethod

namespace ToMethod

/-- Claim C1: for every value `v` of a source type with an infallible
conversion to `T`, `v.to::<T>()` yields a result identical to invoking the
underlying infallible conversion `Into::<T>::into` directly on `v` (the
latter stated via `toSpec`, the spec-side description of the result). -/
theorem to_eq_into {S T : Type} [Into S T] (v : S) :
    «to» v = (toSpec v : T) ∧ «to» v = (Into.into v : T) :=
  ⟨rfl, rfl⟩

/-- Claim C2: for every value `v` of a source type with a fallible conversion
to `T`, `v.try_to::<T>()` yields a result identical, success payload and
failure payload alike, to invoking the underlying fallible conversion
`TryInto::<T>::try_into` directly on `v`; the failure value is surfaced
unmodified.  Stated both against `tryToSpec` (the spec-side description) and
against the underlying conversion itself. -/
theorem try_to_eq_try_into {S T E : Type} [TryInto S T E] (v : S) :
    try_to v = (tryToSpec v : Except E T) ∧ try_to v = (TryInto.try_into v : Except E T) :=
  ⟨rfl, rfl⟩

/-- Claim C3: for every value `v` of a source type with a statically defined
infallible conversion to `T`, the operation `to` cannot fail at runtime: it
always returns a value of type `T`.  In the embedding the codomain of `to`
is `T` itself, not an error-carrying type, so there is no error branch; the
theorem records totality by exhibiting the returned value. -/
theorem to_total {S T : Type} [Into S T] (v : S) :
    ∃ t : T, «to» v = t :=
  ⟨Into.into v, rfl⟩

/-- Claim C4: converting a value to its own type via `to` (through the
reflexive identity conversion) yields a value equal to the original. -/
theorem to_self_eq {S : Type} (v : S) :
    «to» v = v :=
  rfl

/-- Claim C5: for the source value `300 : u16`, `try_to::<u8>()` returns a
failure result, because 300 does not fit in 8 bits. -/
theorem try_to_u16_u8_overflow :
    try_to (300 : U16) = (Except.error ⟨⟩ : Except TryFromIntError U8) :=
  rfl

/-- Claim C6: for the source value `5 : u16`, `try_to::<u8>()` returns the
success result `Ok(5)` of the 8-bit type. -/
theorem try_to_u16_u8_fits :
    try_to (5 : U16) = (Except.ok (5 : U8) : Except TryFromIntError U8) :=
  rfl

/-- Claim C7: for the source value `5 : u8`, `to::<u16>()` returns the value
`5` of the 16-bit type. -/
theorem to_u8_u16_five :
    «to» (5 : U8) = (5 : U16) :=
  rfl

/-- Claim C8: converting infallibly twice in sequence through `A → B → C`
with `to` equals the single direct infallible `A → C` conversion, whenever
the direct conversion exists and is defined consistently with the two-step
path (hypothesis `hcons`). -/
theorem to_chain_eq_direct {A B C : Type} [Into A B] [Into B C] [Into A C]
    (hcons : ∀ a : A, (Into.into (Into.into a : B) : C) = Into.into a) (v : A) :
    («to» («to» v : B) : C) = «to» v :=
  hcons v

/-- Witness for claim C8 at the concrete chain `u8 → u16 → u32` against the
direct widening `u8 → u32`, on the value `5 : u8`. -/
theorem to_chain_eq_direct_witness :
    («to» («to» (5 : U8) : U16) : U32) = «to» (5 : U8) :=
  to_chain_eq_direct (fun _ => rfl) (5 : U8)

/-- Claim C9: both operations are deterministic and, being embedded as pure
functions of their input alone, stateless and side-effect-free: two
invocations on equal inputs yield equal results. -/
theorem to_try_to_deterministic {S T E : Type} [Into S T] [TryInto S T E]
    (v w : S) (h : v = w) :
    «to» v = («to» w : T) ∧ try_to v = (try_to w : Except E T) :=
  ⟨congrArg «to» h, congrArg try_to h⟩

/-- Witness for claim C9 at `u8 → u16`, using the widening `Into` instance
and the fallible conversion derived from it, on equal inputs `5` and `5`. -/
theorem to_try_to_deterministic_witness :
    «to» (5 : U8) = («to» (5 : U8) : U16) ∧
      @try_to U8 U16 Infallible tryIntoOfInto (5 : U8) =
        @try_to U8 U16 Infallible tryIntoOfInto (5 : U8) :=
  @to_try_to_deterministic U8 U16 Infallible _ tryIntoOfInto (5 : U8) (5 : U8) rfl

/-- Claim C10: for a source type with an infallible conversion to `T`, the
fallible conversion derived from it (Rust's blanket
`impl<T, U: Into<T>> TryFrom<U> for T`, error type `Infallible`) never
fails, and `v.try_to::<T>()` through it equals `Ok(v.to::<T>())`; moreover
the failure type is uninhabited. -/
theorem try_to_of_into_eq_ok {S T : Type} [Into S T] (v : S) :
    @try_to S T Infallible tryIntoOfInto v = Except.ok («to» v) ∧ IsEmpty Infallible :=
  ⟨rfl, ⟨fun e => e.elim⟩⟩

end ToMethod
